import Mathlib

/-
Verification development for the UFC statistics ingestion engine
(src/buildUFC.py, class UFCDatabase).

The Python code is shallowly embedded as executable Lean definitions:

  * CSV cell values are modelled as Option String (a DictReader cell is a
    string; an absent column is none).  The isinstance(int/float) branches
    of the helpers are unreachable on that domain and are not modelled.
  * The sqlite store is modelled as explicit lists of rows plus the next
    AUTOINCREMENT id for each table; SELECT ... WHERE is List.find?,
    INSERT is list append, UPDATE ... WHERE id is a pointwise map.
  * REAL columns (career-rate statistics) are modelled as exact rationals:
    the engine only stores parsed decimal literals and never computes with
    them, so no floating point behaviour is involved.
  * Regular expressions used by the code are translated into direct
    character-list scans with the same leftmost / greedy semantics
    (ASCII alphabet; the scraped data is ASCII).
  * datetime.strptime of the three date formats used by the code is
    translated including day-of-month validation and leap years;
    datetime.now() is passed in as an explicit parameter.
-/

namespace UFC

/-! ## Python string primitives -/

/-- Whitespace characters stripped by Python str.strip and matched by
regex whitespace (ASCII range). -/
def isPySpace (c : Char) : Bool :=
  c = ' ' || c = '\t' || c = '\n' || c = '\r' || c = '\x0b' || c = '\x0c'

/-- Python str.strip on a character list: drop whitespace at both ends. -/
def stripList (cs : List Char) : List Char :=
  ((cs.dropWhile isPySpace).reverse.dropWhile isPySpace).reverse

/-- Python str.strip. -/
def pyStrip (s : String) : String := ⟨stripList s.data⟩

/-- Python str.upper (ASCII; scraped tokens are ASCII). -/
def pyUpper (s : String) : String := ⟨s.data.map Char.toUpper⟩

/-- Value of a string of decimal digits (Python int of a digit run). -/
def digitsVal (ds : List Char) : Nat :=
  ds.foldl (fun a c => a * 10 + (c.toNat - '0'.toNat)) 0

/-- Python truthy or for strings: x or y, where empty string is falsy. -/
def pyOr (a : Option String) (b : String) : String :=
  match a with
  | some s => if s = "" then b else s
  | none => b

/-- Python chained truthy or for two optional strings and a default. -/
def pyOr2 (a b : Option String) (c : String) : String :=
  match a with
  | some s => if s = "" then pyOr b c else s
  | none => pyOr b c

/-! ## Regex scans

The code uses re.search and re.findall with an integer pattern, a float
pattern, word-boundary month and year patterns, and an ISO date pattern.
Each is translated as a leftmost scan over the character list. -/

/-- First match of the regex for an optionally signed integer:
leftmost position where a digit, or a minus sign followed by a digit,
starts; the digit run is maximal (greedy). Models
re.search applied to a signed integer group as in _extract_first_int. -/
def findFirstInt : List Char → Option Int
  | [] => none
  | c :: rest =>
    if c.isDigit then
      some ((digitsVal (c :: rest.takeWhile Char.isDigit) : Nat) : Int)
    else if c = '-' then
      match rest with
      | [] => none
      | d :: _ =>
        if d.isDigit then
          some (-((digitsVal (rest.takeWhile Char.isDigit) : Nat) : Int))
        else findFirstInt rest
    else findFirstInt rest

/-- Fuelled scan behind findAllInts; the fuel only forces structural
recursion and is set to the list length, which each step decreases. -/
def findAllIntsAux : Nat → List Char → List Int
  | 0, _ => []
  | _ + 1, [] => []
  | fuel + 1, c :: rest =>
    if c.isDigit then
      ((digitsVal (c :: rest.takeWhile Char.isDigit) : Nat) : Int)
        :: findAllIntsAux fuel (rest.dropWhile Char.isDigit)
    else if c = '-' then
      match rest with
      | [] => []
      | d :: _ =>
        if d.isDigit then
          (-((digitsVal (rest.takeWhile Char.isDigit) : Nat) : Int))
            :: findAllIntsAux fuel (rest.dropWhile Char.isDigit)
        else findAllIntsAux fuel rest
    else findAllIntsAux fuel rest

/-- All non-overlapping matches of the signed integer regex, in order
(re.findall as in _parse_landed_attempted). -/
def findAllInts (cs : List Char) : List Int := findAllIntsAux cs.length cs

/-- Optional fractional part of the float regex: a dot followed by at
least one digit, taken greedily; empty if absent. -/
def fracPart (cs : List Char) : List Char :=
  match cs with
  | c :: d :: rest =>
    if c = '.' && d.isDigit then c :: d :: rest.takeWhile Char.isDigit else []
  | _ => []

/-- First match (as matched text) of the regex for an optionally signed
decimal literal with optional fraction, as used by
_extract_first_float and _extract_first_percent_str. -/
def findFirstNumToken : List Char → Option (List Char)
  | [] => none
  | c :: rest =>
    if c.isDigit then
      some ((c :: rest.takeWhile Char.isDigit)
            ++ fracPart (rest.dropWhile Char.isDigit))
    else if c = '-' then
      match rest with
      | [] => none
      | d :: rest2 =>
        if d.isDigit then
          some (('-' :: d :: rest2.takeWhile Char.isDigit)
                ++ fracPart (rest2.dropWhile Char.isDigit))
        else findFirstNumToken rest
    else findFirstNumToken rest

/-- Exact value of a matched decimal literal token (Python float of the
token; decimal literals are modelled exactly as rationals). -/
def ratOfNumToken (t : List Char) : Rat :=
  let neg : Bool := match t with | c :: _ => c = '-' | [] => false
  let t' : List Char := if neg then t.tail else t
  let ip := t'.takeWhile Char.isDigit
  let rest := t'.dropWhile Char.isDigit
  let fp := rest.tail.takeWhile Char.isDigit
  let q : Rat := mkRat (digitsVal (ip ++ fp) : Int) (10 ^ fp.length)
  if neg then -q else q

/-! ## Token Parser (helper parsing functions of UFCDatabase) -/

/-- UFCDatabase._extract_first_int: first integer found in the string, or
the default on a missing value or a placeholder. -/
def extract_first_int (value : Option String) (default : Int) : Int :=
  match value with
  | none => default
  | some v =>
    let s := pyStrip v
    if s = "" || pyUpper s = "N/A" || s = "---" then default
    else
      match findFirstInt s.data with
      | some n => n
      | none => default

/-- Python str.replace of the percent sign by a space and a percent sign,
as done before the float scan in _extract_first_float. -/
def percentSpace (s : String) : String :=
  ⟨s.data.foldr (fun c acc => if c = '%' then ' ' :: '%' :: acc else c :: acc) []⟩

/-- UFCDatabase._extract_first_float: first float-like token, or the
default on a missing value or a placeholder. The try/except around the
float conversion never fires on a matched token and is not modelled. -/
def extract_first_float (value : Option String) (default : Option Rat) : Option Rat :=
  match value with
  | none => default
  | some v =>
    let s := pyStrip v
    if s = "" || pyUpper s = "N/A" || s = "---" then default
    else
      match findFirstNumToken (percentSpace s).data with
      | some t => some (ratOfNumToken t)
      | none => default

/-- UFCDatabase._extract_first_percent_str: first numeric literal
re-rendered with a trailing percent sign, or none. -/
def extract_first_percent_str (value : Option String) : Option String :=
  match value with
  | none => none
  | some v =>
    if v = "" then none
    else
      let s := pyStrip v
      match findFirstNumToken s.data with
      | some t => some (String.mk t ++ "%")
      | none => none

/-- UFCDatabase._parse_landed_attempted: all integers in order, keeping
the first as landed and the second (when present) as attempted. -/
def parse_landed_attempted (value : Option String) : Int × Option Int :=
  match value with
  | none => (0, none)
  | some v =>
    if v = "" then (0, none)
    else
      let s := pyStrip v
      match findAllInts s.data with
      | [] => (0, none)
      | [n] => (n, none)
      | n :: m :: _ => (n, some m)

/-- UFCDatabase._parse_landed_attempted_safe: as parse_landed_attempted
but short-circuiting on placeholder strings. -/
def parse_landed_attempted_safe (value : Option String) : Int × Option Int :=
  match value with
  | none => (0, none)
  | some v =>
    if v = "" then (0, none)
    else
      let s := pyStrip v
      if s = "" || pyUpper s = "N/A" || s = "---" then (0, none)
      else
        match findAllInts s.data with
        | [] => (0, none)
        | [n] => (n, none)
        | n :: m :: _ => (n, some m)

/-- UFCDatabase._safe_str: trimmed string, or none when the result is
empty or equals the uppercase placeholder. -/
def safe_str (v : Option String) : Option String :=
  match v with
  | none => none
  | some v0 =>
    let s := pyStrip v0
    if s ≠ "" && pyUpper s ≠ "N/A" then some s else none

/-- UFCDatabase._parse_stat: None on a falsy, placeholder or blank value,
else the first float token. -/
def parse_stat (value : String) : Option Rat :=
  if value = "" || value = "N/A" || pyStrip value = "" then none
  else extract_first_float (some value) none

/-! ## Dates (datetime.strptime of the formats used by the code)

CPython strptime compiles the format to a regular expression matched
case-insensitively from the start of the string, requiring the whole
string to be consumed, and then builds a datetime, which validates the
day of month (raising on, e.g., Feb 30). Whitespace in the format
matches one or more whitespace characters; the day directive matches
one or two digits with value 1 to 31, the month-number directive one or
two digits with value 1 to 12, the year directive exactly four digits,
and the abbreviated month name directive the twelve three-letter names. -/

/-- Three-letter month abbreviation (case-insensitive), as matched by the
month-name directive. -/
def monthAbbrevNum (c1 c2 c3 : Char) : Option Nat :=
  let t := String.mk [c1.toLower, c2.toLower, c3.toLower]
  if t = "jan" then some 1 else if t = "feb" then some 2
  else if t = "mar" then some 3 else if t = "apr" then some 4
  else if t = "may" then some 5 else if t = "jun" then some 6
  else if t = "jul" then some 7 else if t = "aug" then some 8
  else if t = "sep" then some 9 else if t = "oct" then some 10
  else if t = "nov" then some 11 else if t = "dec" then some 12
  else none

/-- Gregorian leap year rule used by datetime. -/
def isLeap (y : Nat) : Bool := y % 4 = 0 && (y % 100 ≠ 0 || y % 400 = 0)

/-- Days in a month, as validated by the datetime constructor. -/
def daysInMonth (y m : Nat) : Nat :=
  if m = 2 then (if isLeap y then 29 else 28)
  else if m = 4 || m = 6 || m = 9 || m = 11 then 30
  else 31

/-- Validity check performed by the datetime constructor (year at least 1,
day in range for the month). -/
def validDate (y m d : Nat) : Bool := 1 ≤ y && 1 ≤ d && d ≤ daysInMonth y m

/-- One-or-more-whitespace matcher produced for whitespace in the format. -/
def skipWs1 (cs : List Char) : Option (List Char) :=
  match cs with
  | c :: rest => if isPySpace c then some (rest.dropWhile isPySpace) else none
  | [] => none

/-- Exactly four digits, the year directive. -/
def take4Digits (cs : List Char) : Option (Nat × List Char) :=
  match cs with
  | a :: b :: c :: d :: rest =>
    if a.isDigit && b.isDigit && c.isDigit && d.isDigit then
      some (digitsVal [a, b, c, d], rest)
    else none
  | _ => none

/-- Candidate matches of the day directive, two-digit alternatives first,
then the single-digit alternative, in the order the compiled regex
tries them. -/
def dayCandidates (cs : List Char) : List (Nat × List Char) :=
  let two : List (Nat × List Char) :=
    match cs with
    | a :: b :: rest =>
      if a = '3' && (b = '0' || b = '1') then [(digitsVal [a, b], rest)]
      else if (a = '1' || a = '2') && b.isDigit then [(digitsVal [a, b], rest)]
      else if a = '0' && b.isDigit && b ≠ '0' then [(digitsVal [a, b], rest)]
      else []
    | _ => []
  let one : List (Nat × List Char) :=
    match cs with
    | a :: rest => if a.isDigit && a ≠ '0' then [(digitsVal [a], rest)] else []
    | [] => []
  two ++ one

/-- Candidate matches of the month-number directive, two-digit
alternatives first. -/
def monthCandidates (cs : List Char) : List (Nat × List Char) :=
  let two : List (Nat × List Char) :=
    match cs with
    | a :: b :: rest =>
      if a = '1' && (b = '0' || b = '1' || b = '2') then [(digitsVal [a, b], rest)]
      else if a = '0' && b.isDigit && b ≠ '0' then [(digitsVal [a, b], rest)]
      else []
    | _ => []
  let one : List (Nat × List Char) :=
    match cs with
    | a :: rest => if a.isDigit && a ≠ '0' then [(digitsVal [a], rest)] else []
    | [] => []
  two ++ one

/-- Tail of the month-day-comma-year formats after the day: a comma, one
or more whitespace, four year digits, end of string. Tries the day
candidates in regex order. -/
def finishCommaYear (m : Nat) : List (Nat × List Char) → Option (Nat × Nat × Nat)
  | [] => none
  | (d, rest) :: more =>
    match rest with
    | c :: r1 =>
      if c = ',' then
        match skipWs1 r1 with
        | some r2 =>
          match take4Digits r2 with
          | some (y, rem) =>
            if rem = [] then some (y, m, d) else finishCommaYear m more
          | none => finishCommaYear m more
        | none => finishCommaYear m more
      else finishCommaYear m more
    | [] => finishCommaYear m more

/-- strptime with format percent-b space percent-d comma space percent-Y
(month name, day, comma, year), returning (year, month, day). -/
def strptime_bdY (cs : List Char) : Option (Nat × Nat × Nat) :=
  match cs with
  | c1 :: c2 :: c3 :: rest =>
    match monthAbbrevNum c1 c2 c3 with
    | some m =>
      match skipWs1 rest with
      | some r1 =>
        match finishCommaYear m (dayCandidates r1) with
        | some (y, m', d) => if validDate y m' d then some (y, m', d) else none
        | none => none
      | none => none
    | none => none
  | _ => none

/-- strptime with the variant format carrying a period after the month
abbreviation. -/
def strptime_bDotdY (cs : List Char) : Option (Nat × Nat × Nat) :=
  match cs with
  | c1 :: c2 :: c3 :: c4 :: rest =>
    match monthAbbrevNum c1 c2 c3 with
    | some m =>
      if c4 = '.' then
        match skipWs1 rest with
        | some r1 =>
          match finishCommaYear m (dayCandidates r1) with
          | some (y, m', d) => if validDate y m' d then some (y, m', d) else none
          | none => none
        | none => none
      else none
    | none => none
  | _ => none

/-- Day position of the ISO format: day candidates, then end of string. -/
def isoDay (y m : Nat) : List (Nat × List Char) → Option (Nat × Nat × Nat)
  | [] => none
  | (d, rest) :: more => if rest = [] then some (y, m, d) else isoDay y m more

/-- Month position of the ISO format: month candidates, a dash, then the
day position. -/
def isoMonth (y : Nat) : List (Nat × List Char) → Option (Nat × Nat × Nat)
  | [] => none
  | (m, rest) :: more =>
    match rest with
    | c :: r1 =>
      if c = '-' then
        match isoDay y m (dayCandidates r1) with
        | some v => some v
        | none => isoMonth y more
      else isoMonth y more
    | [] => isoMonth y more

/-- strptime with the ISO year-month-day format. -/
def strptime_Ymd (cs : List Char) : Option (Nat × Nat × Nat) :=
  match take4Digits cs with
  | some (y, rest) =>
    match rest with
    | c :: r1 =>
      if c = '-' then
        match isoMonth y (monthCandidates r1) with
        | some (y', m, d) => if validDate y' m d then some (y', m, d) else none
        | none => none
      else none
    | [] => none
  | none => none

/-- Zero-padded two-digit rendering used by strftime. -/
def pad2 (n : Nat) : String := if n < 10 then "0" ++ toString n else toString n

/-- Zero-padded four-digit rendering used by strftime for the year. -/
def pad4 (n : Nat) : String :=
  if n < 10 then "000" ++ toString n
  else if n < 100 then "00" ++ toString n
  else if n < 1000 then "0" ++ toString n
  else toString n

/-- strftime of a date with the ISO year-month-day format. -/
def fmtYmd (y m d : Nat) : String := pad4 y ++ "-" ++ pad2 m ++ "-" ++ pad2 d

/-! ## Date-shaped heuristics (regex searches over raw cells) -/

/-- Regex word character (ASCII). -/
def isWordChar (c : Char) : Bool := c.isAlphanum || c = '_'

/-- Word boundary before the current position, given the previous
character. -/
def boundaryOk (prev : Option Char) : Bool :=
  match prev with
  | none => true
  | some p => !isWordChar p

/-- Word boundary after a match, given the remaining characters. -/
def afterBoundary (cs : List Char) : Bool :=
  match cs with
  | [] => true
  | c :: _ => !isWordChar c

/-- Match at the current position of the year regex: a word boundary, the
digits 19 or 20, two digits, a word boundary. -/
def yearHere (prev : Option Char) (cs : List Char) : Bool :=
  match cs with
  | a :: b :: c :: d :: rest =>
    boundaryOk prev && ((a = '1' && b = '9') || (a = '2' && b = '0'))
      && c.isDigit && d.isDigit && afterBoundary rest
  | _ => false

/-- re.search of the year regex. -/
def yearSearchAux (prev : Option Char) : List Char → Bool
  | [] => false
  | c :: rest => yearHere prev (c :: rest) || yearSearchAux (some c) rest

/-- re.search of the year regex over a whole string. -/
def yearSearch (cs : List Char) : Bool := yearSearchAux none cs

/-- Match at the current position of the month-name regex: a word
boundary, a three-letter month abbreviation ignoring case, a word
boundary. -/
def monthHere (prev : Option Char) (cs : List Char) : Bool :=
  match cs with
  | a :: b :: c :: rest =>
    boundaryOk prev && (monthAbbrevNum a b c).isSome && afterBoundary rest
  | _ => false

/-- re.search of the month-name regex. -/
def monthSearchAux (prev : Option Char) : List Char → Bool
  | [] => false
  | c :: rest => monthHere prev (c :: rest) || monthSearchAux (some c) rest

/-- re.search of the month-name regex over a whole string. -/
def monthSearch (cs : List Char) : Bool := monthSearchAux none cs

/-- Match at the current position of the ISO date regex: four digits, a
dash, two digits, a dash, two digits (no boundaries). -/
def isoHere (cs : List Char) : Bool :=
  match cs with
  | a :: b :: c :: d :: e :: f :: g :: h :: i :: j :: _ =>
    a.isDigit && b.isDigit && c.isDigit && d.isDigit && e = '-'
      && f.isDigit && g.isDigit && h = '-' && i.isDigit && j.isDigit
  | _ => false

/-- re.search of the ISO date regex. -/
def isoSearchAux : List Char → Bool
  | [] => false
  | c :: rest => isoHere (c :: rest) || isoSearchAux rest

/-- re.search of the ISO date regex over a whole string. -/
def isoSearch (cs : List Char) : Bool := isoSearchAux cs

/-- The looks_like_date helper defined inside import_from_csv: false on a
falsy value, else a search for a year, a month name, or an ISO date. -/
def looks_like_date (s : Option String) : Bool :=
  match s with
  | none => false
  | some v =>
    if v = "" then false
    else yearSearch v.data || monthSearch v.data || isoSearch v.data

/-- The narrower heuristic inside add_event, which searches only for a
year or a month name before attempting to parse. -/
def dateHeuristicHit (cs : List Char) : Bool := yearSearch cs || monthSearch cs

/-- The ordered-format date parse of add_event: the month-day-year
format, its period variant, then the ISO format; the first success is
re-rendered in ISO form. -/
def tryEventFormats (cs : List Char) : Option String :=
  match strptime_bdY cs with
  | some (y, m, d) => some (fmtYmd y m d)
  | none =>
    match strptime_bDotdY cs with
    | some (y, m, d) => some (fmtYmd y m d)
    | none =>
      match strptime_Ymd cs with
      | some (y, m, d) => some (fmtYmd y m d)
      | none => none

/-- The stored event date computed by add_event: parse the supplied date
when the heuristic fires, else validate and re-render the default date,
else the current date (passed explicitly as now). -/
def parseEventDate (event_date : Option String) (default_date now : String) : String :=
  let fd : Option String :=
    match event_date with
    | none => none
    | some e =>
      if e = "" then none
      else
        let ed := pyStrip e
        if dateHeuristicHit ed.data then tryEventFormats ed.data else none
  match fd with
  | some d => d
  | none =>
    match strptime_Ymd default_date.data with
    | some (y, m, d) => fmtYmd y m d
    | none => now

/-- The stored date of birth computed by add_fighter: skipped for a falsy
or placeholder value; parsed with the two month-name formats; kept raw
when both fail. -/
def formatDob (dob : Option String) : Option String :=
  match dob with
  | none => none
  | some d =>
    if d = "" || d = "N/A" then none
    else
      match strptime_bdY d.data with
      | some (y, m, dd) => some (fmtYmd y m dd)
      | none =>
        match strptime_bDotdY d.data with
        | some (y, m, dd) => some (fmtYmd y m dd)
        | none => some d

/-! ## Relational store

The four sqlite tables are modelled as lists of rows in insertion order
together with the next AUTOINCREMENT id (sqlite ids start at 1).
SELECT with a WHERE clause is List.find? over the insertion order,
INSERT is an append, and UPDATE with a WHERE id clause maps the update
over the rows with that id. -/

/-- Row of the events table. -/
structure EventRow where
  event_id : Nat
  event_name : String
  event_date : String
  event_location : Option String
deriving DecidableEq, Repr

/-- Row of the fighters table; REAL career-rate columns are exact
rationals (see the header note). -/
structure FighterRow where
  fighter_id : Nat
  name : String
  nickname : Option String
  profile_url : Option String
  height : Option String
  weight : Option String
  reach : Option String
  stance : Option String
  dob : Option String
  slpm : Option Rat
  str_acc : Option Rat
  sapm : Option Rat
  str_def : Option Rat
  td_avg : Option Rat
  td_acc : Option Rat
  td_def : Option Rat
  sub_avg : Option Rat
deriving DecidableEq, Repr

/-- Row of the fight_results table. -/
structure FightRow where
  fight_id : Nat
  event_id : Nat
  fighter_id : Nat
  opponent_id : Option Nat
  weight_class : Option String
  kd : Int
  sig_str : Int
  td : Int
  sub : Int
  result : Option String
  method : Option String
  method_detail : Option String
  round : Option Int
  time : Option String
  fight_url : Option String
deriving DecidableEq, Repr

/-- Row of the round_stats table. -/
structure RoundStatRow where
  round_stat_id : Nat
  fight_id : Nat
  round_number : Nat
  kd : Int
  sig_str : Int
  sig_str_pct : Option String
  total_str : Int
  td : Int
  td_pct : Option String
  sub_att : Int
  rev : Int
  ctrl_time : Option String
deriving DecidableEq, Repr

/-- The whole store. -/
structure DB where
  events : List EventRow
  fighters : List FighterRow
  fights : List FightRow
  round_stats : List RoundStatRow
  next_event_id : Nat
  next_fighter_id : Nat
  next_fight_id : Nat
  next_round_stat_id : Nat
deriving DecidableEq, Repr

/-- A freshly created database. -/
def dbEmpty : DB := ⟨[], [], [], [], 1, 1, 1, 1⟩

/-- The eight optional career-rate statistics handed to add_fighter. -/
structure CareerStats where
  slpm : Option Rat
  str_acc : Option Rat
  sapm : Option Rat
  str_def : Option Rat
  td_avg : Option Rat
  td_acc : Option Rat
  td_def : Option Rat
  sub_avg : Option Rat
deriving DecidableEq, Repr

/-- Career statistics with every entry absent (an empty dict). -/
def csEmpty : CareerStats := ⟨none, none, none, none, none, none, none, none⟩

/-- SQL COALESCE of a supplied value and a stored value: the supplied
value when it is non-null, else the stored one. -/
def coalesce (a b : Option α) : Option α :=
  match a with
  | some x => some x
  | none => b

/-! ## add_event -/

/-- The event name actually stored: stripped when truthy, else the
literal unknown-event name. -/
def normEventName (event_name : Option String) : String :=
  match event_name with
  | none => "Unknown Event"
  | some s => if s = "" then "Unknown Event" else pyStrip s

/-- UFCDatabase.add_event: add or return the existing event keyed by
(name, formatted date); returns ((event id, inserted flag), store). -/
def add_event (db : DB) (event_name event_date event_location : Option String)
    (default_date now : String) : (Nat × Bool) × DB :=
  let name := normEventName event_name
  let date := parseEventDate event_date default_date now
  match db.events.find? (fun e => e.event_name == name && e.event_date == date) with
  | some e => ((e.event_id, false), db)
  | none =>
    ((db.next_event_id, true),
     { db with
        events := db.events ++ [⟨db.next_event_id, name, date, event_location⟩],
        next_event_id := db.next_event_id + 1 })

/-! ## add_fighter -/

/-- The fighter name actually stored: stripped when truthy, else the
literal unknown-fighter name. -/
def normFighterName (name : Option String) : String :=
  match name with
  | none => "Unknown Fighter"
  | some s => if s = "" then "Unknown Fighter" else pyStrip s

/-- The UPDATE ... SET col = COALESCE(new, col) statement applied to one
row by add_fighter when the fighter already exists. -/
def updateFighterRow (r : FighterRow)
    (nickname profile_url height weight reach stance fdob : Option String)
    (stats : CareerStats) : FighterRow :=
  { r with
      nickname := coalesce nickname r.nickname,
      profile_url := coalesce profile_url r.profile_url,
      height := coalesce height r.height,
      weight := coalesce weight r.weight,
      reach := coalesce reach r.reach,
      stance := coalesce stance r.stance,
      dob := coalesce fdob r.dob,
      slpm := coalesce stats.slpm r.slpm,
      str_acc := coalesce stats.str_acc r.str_acc,
      sapm := coalesce stats.sapm r.sapm,
      str_def := coalesce stats.str_def r.str_def,
      td_avg := coalesce stats.td_avg r.td_avg,
      td_acc := coalesce stats.td_acc r.td_acc,
      td_def := coalesce stats.td_def r.td_def,
      sub_avg := coalesce stats.sub_avg r.sub_avg }

/-- UFCDatabase.add_fighter: resolve by stored name (SELECT ... WHERE
name = ?), update the existing row with coalesce semantics, or insert a
new row; returns ((fighter id, inserted flag), store). -/
def add_fighter (db : DB) (name nickname profile_url height weight reach stance dob : Option String)
    (stats : CareerStats) : (Nat × Bool) × DB :=
  let name' := normFighterName name
  let fdob := formatDob dob
  match db.fighters.find? (fun r => r.name == name') with
  | some r =>
    ((r.fighter_id, false),
     { db with
        fighters := db.fighters.map (fun x =>
          if x.fighter_id == r.fighter_id then
            updateFighterRow x nickname profile_url height weight reach stance fdob stats
          else x) })
  | none =>
    ((db.next_fighter_id, true),
     { db with
        fighters := db.fighters ++
          [⟨db.next_fighter_id, name', nickname, profile_url, height, weight, reach,
            stance, fdob, stats.slpm, stats.str_acc, stats.sapm, stats.str_def,
            stats.td_avg, stats.td_acc, stats.td_def, stats.sub_avg⟩],
        next_fighter_id := db.next_fighter_id + 1 })

/-! ## add_fight_result and add_round_stats (append-only inserts) -/

/-- UFCDatabase.add_fight_result: plain INSERT, returns the new fight id
and the store. -/
def add_fight_result (db : DB) (event_id fighter_id : Nat) (opponent_id : Option Nat)
    (weight_class : Option String) (kd sig_str td sub : Int)
    (result method method_detail : Option String) (round_num : Option Int)
    (time fight_url : Option String) : Nat × DB :=
  (db.next_fight_id,
   { db with
      fights := db.fights ++
        [⟨db.next_fight_id, event_id, fighter_id, opponent_id, weight_class,
          kd, sig_str, td, sub, result, method, method_detail, round_num, time, fight_url⟩],
      next_fight_id := db.next_fight_id + 1 })

/-- UFCDatabase.add_round_stats: plain INSERT. -/
def add_round_stats (db : DB) (fight_id : Nat) (round_number : Nat)
    (kd sig_str : Int) (sig_str_pct : Option String) (total_str td : Int)
    (td_pct : Option String) (sub_att rev : Int) (ctrl_time : Option String) : DB :=
  { db with
      round_stats := db.round_stats ++
        [⟨db.next_round_stat_id, fight_id, round_number, kd, sig_str, sig_str_pct,
          total_str, td, td_pct, sub_att, rev, ctrl_time⟩],
      next_round_stat_id := db.next_round_stat_id + 1 }

/-! ## CSV row model and import_from_csv per-row processing

A DictReader row is modelled as an association list from column name to
cell text; row.get is the first association, and key membership and
truthiness coincide with the Python checks on that model. -/

/-- A CSV row. -/
def Row : Type := List (String × String)

/-- dict.get on a row: the first binding of the key, if any. -/
def pyGet (row : Row) (k : String) : Option String :=
  (List.find? (fun p => p.1 == k) row).map (fun p => p.2)

/-- Python str.splitlines restricted to the line breaks that occur in the
scraped data (line feed, carriage return, and their pair). -/
def pySplitlinesAux : List Char → List Char → List String
  | [], acc => if acc = [] then [] else [⟨acc.reverse⟩]
  | [c], acc =>
    if c = '\r' || c = '\n' then [⟨acc.reverse⟩] else [⟨(c :: acc).reverse⟩]
  | c1 :: c2 :: rest, acc =>
    if c1 = '\r' && c2 = '\n' then ⟨acc.reverse⟩ :: pySplitlinesAux rest []
    else if c1 = '\r' || c1 = '\n' then ⟨acc.reverse⟩ :: pySplitlinesAux (c2 :: rest) []
    else pySplitlinesAux (c2 :: rest) (c1 :: acc)

/-- Python str.splitlines. -/
def pySplitlines (s : String) : List String := pySplitlinesAux s.data []

/-- Python int applied to a stripped string: optional sign then digits
(PEP 515 underscore grouping is not modelled); None models the
ValueError caught by the caller. -/
def pyIntOfString (s : String) : Option Int :=
  let cs := stripList s.data
  match cs with
  | [] => none
  | c :: rest =>
    if c = '-' then
      if rest ≠ [] && rest.all Char.isDigit then some (-(digitsVal rest : Int)) else none
    else if c = '+' then
      if rest ≠ [] && rest.all Char.isDigit then some ((digitsVal rest : Nat) : Int) else none
    else if cs.all Char.isDigit then some ((digitsVal cs : Nat) : Int)
    else none

/-! ## Round-block discovery -/

/-- The literal section infix of the round-block column pattern. -/
def totalsSep : List Char := '_' :: 'T' :: 'o' :: 't' :: 'a' :: 'l' :: 's' :: '_' :: []

/-- End-of-pattern test for the trailing dot-plus-dollar of the block key
regex: at least one character, none of which is a line feed, except
that a single trailing line feed is tolerated by the dollar anchor. -/
def dotPlusEnd (cs : List Char) : Bool :=
  match cs.getLast? with
  | none => false
  | some c =>
    if c = '\n' then decide (cs.dropLast ≠ []) && !cs.dropLast.contains '\n'
    else !cs.contains '\n'

/-- re.match of the anchored block-key regex (capital F, one or more
digits taken greedily, the literal Totals infix, at least one more
character), returning the block number. -/
def blockKeyNumL (cs : List Char) : Option Nat :=
  match cs with
  | [] => none
  | c :: rest =>
    if c = 'F' then
      let ds := rest.takeWhile Char.isDigit
      if ds = [] then none
      else
        let after := rest.dropWhile Char.isDigit
        if totalsSep.isPrefixOf after then
          if dotPlusEnd (after.drop 8) then some (digitsVal ds) else none
        else none
    else none

/-- Insertion into a sorted list of naturals. -/
def insertSorted (n : Nat) : List Nat → List Nat
  | [] => [n]
  | m :: rest => if n ≤ m then n :: m :: rest else m :: insertSorted n rest

/-- Ascending insertion sort. -/
def sortNats (l : List Nat) : List Nat := l.foldr insertSorted []

/-- The sorted set of block numbers discovered in the header keys
(the set comprehension plus sorted call of import_from_csv). -/
def discoverBlocks (headerKeys : List String) : List Nat :=
  sortNats ((headerKeys.filterMap (fun k => blockKeyNumL k.data)).eraseDups)

/-- Column name of a block field, the f-string F block _Totals_ field. -/
def blockCol (b : Nat) (field : String) : String :=
  "F" ++ toString b ++ "_Totals_" ++ field

/-- The presence test of import_from_csv: some of the KD, Sig_Str and
Total_Str columns of the block is present in the row, truthy, and its
stripped text is not the empty string, the exact uppercase placeholder,
or the triple dash. -/
def blockPresence (row : Row) (b : Nat) : Bool :=
  [blockCol b "KD", blockCol b "Sig_Str", blockCol b "Total_Str"].any (fun k =>
    match pyGet row k with
    | none => false
    | some v =>
      v ≠ "" && !(pyStrip v = "" || pyStrip v = "N/A" || pyStrip v = "---"))

/-- The fields of one round_stats INSERT before fight-id attachment. -/
structure RoundDraft where
  round_number : Nat
  fighterIndex : Nat
  kd : Int
  sig_str : Int
  sig_str_pct : Option String
  total_str : Int
  td : Int
  td_pct : Option String
  sub_att : Int
  rev : Int
  ctrl_time : Option String
deriving DecidableEq, Repr

/-- The body of the per-block loop of import_from_csv: skip the block
unless the presence test passes, else parse each field and derive the
round number and fighter slot from the block number. -/
def processBlock (row : Row) (b : Nat) : Option RoundDraft :=
  if blockPresence row b then
    some
      { round_number := (b + 1) / 2,
        fighterIndex := if b % 2 = 1 then 1 else 2,
        kd := extract_first_int (pyGet row (blockCol b "KD")) 0,
        sig_str := (parse_landed_attempted_safe (pyGet row (blockCol b "Sig_Str"))).1,
        sig_str_pct := extract_first_percent_str (pyGet row (blockCol b "Sig_Str_Pct")),
        total_str := (parse_landed_attempted_safe (pyGet row (blockCol b "Total_Str"))).1,
        td := (parse_landed_attempted_safe (pyGet row (blockCol b "TD"))).1,
        td_pct := extract_first_percent_str (pyGet row (blockCol b "TD_Pct")),
        sub_att := extract_first_int (pyGet row (blockCol b "Sub_Att")) 0,
        rev := extract_first_int (pyGet row (blockCol b "Rev")) 0,
        ctrl_time := safe_str (pyGet row (blockCol b "Ctrl")) }
  else none

/-- All round drafts of one row: the discovered blocks in ascending
order, each put through the per-block loop body. -/
def roundDraftsForRow (headerKeys : List String) (row : Row) : List RoundDraft :=
  (discoverBlocks headerKeys).filterMap (processBlock row)

/-! ## Event date and location heuristic -/

/-- The swapped-column heuristic of import_from_csv: whichever of the two
cells looks like a date becomes the date candidate; when neither does,
the default date is used and the first truthy cell becomes the
location. Both cells have already been through safe_str, so Python
truthiness coincides with option presence. -/
def eventCandidates (raw_event_date raw_event_location : Option String)
    (default_date : String) : Option String × Option String :=
  if looks_like_date raw_event_date then (raw_event_date, raw_event_location)
  else if looks_like_date raw_event_location then (raw_event_location, raw_event_date)
  else (some default_date, coalesce raw_event_date raw_event_location)

/-- The stored identity pair (event name, formatted date) that add_event
keys on, as computed for a row with the given raw name, raw date cell
and raw location cell. -/
def eventKeyOfRow (event_name raw_event_date raw_event_location : Option String)
    (default_date now : String) : String × String :=
  let c := eventCandidates raw_event_date raw_event_location default_date
  (normEventName event_name, parseEventDate c.1 default_date now)

/-! ## Per-row import -/

/-- The per-category counters returned by import_from_csv. -/
structure Counters where
  events : Nat
  fighters : Nat
  fights : Nat
  rounds : Nat
deriving DecidableEq, Repr

/-- Career-stat parsing for one fighter prefix (the f-string keyed dict
built in import_from_csv; the duplicated or defaults to dict.get with an
empty-string default). -/
def careerStatsFor (row : Row) (p : String) : CareerStats :=
  { slpm := parse_stat ((pyGet row (p ++ " SLpM")).getD ""),
    str_acc := parse_stat ((pyGet row (p ++ " Str. Acc.")).getD ""),
    sapm := parse_stat ((pyGet row (p ++ " SApM")).getD ""),
    str_def := parse_stat ((pyGet row (p ++ " Str. Def")).getD ""),
    td_avg := parse_stat ((pyGet row (p ++ " TD Avg.")).getD ""),
    td_acc := parse_stat ((pyGet row (p ++ " TD Acc.")).getD ""),
    td_def := parse_stat ((pyGet row (p ++ " TD Def.")).getD ""),
    sub_avg := parse_stat ((pyGet row (p ++ " Sub. Avg.")).getD "") }

/-- Result filtering of import_from_csv: keep the raw result cell only
when truthy and not the placeholder in any case. -/
def filterResult (v : Option String) : Option String :=
  match v with
  | none => none
  | some s => if s ≠ "" && pyUpper s ≠ "N/A" then some s else none

/-- The round-block insertion loop at the end of the row iteration: each
draft is attached to the fight row of its fighter slot and inserted;
the second component counts insertions. -/
def insertRoundStats (f1_fight_id f2_fight_id : Nat) : List RoundDraft → DB × Nat → DB × Nat
  | [], acc => acc
  | d :: rest, acc =>
    insertRoundStats f1_fight_id f2_fight_id rest
      (add_round_stats acc.1 (if d.fighterIndex = 1 then f1_fight_id else f2_fight_id)
        d.round_number d.kd d.sig_str d.sig_str_pct d.total_str d.td d.td_pct
        d.sub_att d.rev d.ctrl_time,
       acc.2 + 1)

/-- One iteration of the row loop of import_from_csv: method splitting,
the date and location heuristic, event upsert, the two fighter upserts,
the two fight inserts, and the round-block loop; returns the updated
store and counters. -/
def processRow (headerKeys : List String) (row : Row) (default_date now : String)
    (db : DB) (c : Counters) : DB × Counters :=
  let method_lines :=
    ((pySplitlines (pyStrip ((pyGet row "Method").getD ""))).map pyStrip).filter (fun l => l ≠ "")
  let method_type := method_lines.head?
  let method_detail := method_lines[1]?
  let raw_event_date := safe_str (pyGet row "Event Date")
  let raw_event_location := safe_str (pyGet row "Event Location")
  let cands := eventCandidates raw_event_date raw_event_location default_date
  let ev := add_event db (some (pyOr (pyGet row "Event Name") "Unknown Event"))
    cands.1 cands.2 default_date now
  let event_id := ev.1.1
  let db1 := ev.2
  let c := if ev.1.2 then { c with events := c.events + 1 } else c
  let f1_stats := careerStatsFor row "Fighter 1"
  let fighter1_name := pyOr2 (pyGet row "Fighter 1 Name") (pyGet row "Fighter 1") "Unknown Fighter 1"
  let f1 := add_fighter db1 (some fighter1_name)
    (safe_str (pyGet row "Fighter 1 Nickname"))
    (safe_str (pyGet row "Fighter 1 URL"))
    (safe_str (pyGet row "Fighter 1 Height"))
    (safe_str (pyGet row "Fighter 1 Weight"))
    (safe_str (pyGet row "Fighter 1 Reach"))
    (safe_str (pyGet row "Fighter 1 STANCE"))
    (safe_str (pyGet row "Fighter 1 DOB"))
    f1_stats
  let fighter1_id := f1.1.1
  let db2 := f1.2
  let c := if f1.1.2 then { c with fighters := c.fighters + 1 } else c
  let f2_stats := careerStatsFor row "Fighter 2"
  let fighter2_name := pyOr2 (pyGet row "Fighter 2 Name") (pyGet row "Fighter 2") "Unknown Fighter 2"
  let f2 := add_fighter db2 (some fighter2_name)
    (safe_str (pyGet row "Fighter 2 Nickname"))
    (safe_str (pyGet row "Fighter 2 URL"))
    (safe_str (pyGet row "Fighter 2 Height"))
    (safe_str (pyGet row "Fighter 2 Weight"))
    (safe_str (pyGet row "Fighter 2 Reach"))
    (safe_str (pyGet row "Fighter 2 STANCE"))
    (safe_str (pyGet row "Fighter 2 DOB"))
    f2_stats
  let fighter2_id := f2.1.1
  let db3 := f2.2
  let c := if f2.1.2 then { c with fighters := c.fighters + 1 } else c
  let f1_result := filterResult (pyGet row "Fighter 1 Result")
  let f2_result := filterResult (pyGet row "Fighter 2 Result")
  let f1_kd := extract_first_int (pyGet row "Fighter 1 KD") 0
  let f2_kd := extract_first_int (pyGet row "Fighter 2 KD") 0
  let f1_str := extract_first_int (pyGet row "Fighter 1 Str") 0
  let f2_str := extract_first_int (pyGet row "Fighter 2 Str") 0
  let f1_td := extract_first_int (pyGet row "Fighter 1 TD") 0
  let f2_td := extract_first_int (pyGet row "Fighter 2 TD") 0
  let f1_sub := extract_first_int (pyGet row "Fighter 1 Sub") 0
  let f2_sub := extract_first_int (pyGet row "Fighter 2 Sub") 0
  let round_parsed :=
    match pyGet row "Round" with
    | none => none
    | some s => if s = "" then none else pyIntOfString (pyStrip s)
  let fight_url := safe_str (pyGet row "Fight Detail URL")
  let wc := safe_str (pyGet row "Weight Class")
  let tme := safe_str (pyGet row "Time")
  let fr1 := add_fight_result db3 event_id fighter1_id (some fighter2_id) wc
    f1_kd f1_str f1_td f1_sub f1_result method_type method_detail round_parsed tme fight_url
  let f1_fight_id := fr1.1
  let db4 := fr1.2
  let fr2 := add_fight_result db4 event_id fighter2_id (some fighter1_id) wc
    f2_kd f2_str f2_td f2_sub f2_result method_type method_detail round_parsed tme fight_url
  let f2_fight_id := fr2.1
  let db5 := fr2.2
  let c := { c with fights := c.fights + 2 }
  let drafts := roundDraftsForRow headerKeys row
  let folded := insertRoundStats f1_fight_id f2_fight_id drafts (db5, 0)
  (folded.1, { c with rounds := c.rounds + folded.2 })

/-! ## Frame lemmas for the store operations -/

theorem add_event_fights (db : DB) (en ed el : Option String) (dd now : String) :
    ((add_event db en ed el dd now).2).fights = db.fights := by
  simp only [add_event]
  cases h : db.events.find?
      (fun e => e.event_name == normEventName en && e.event_date == parseEventDate ed dd now) <;>
    simp [h]

theorem add_event_next_fight (db : DB) (en ed el : Option String) (dd now : String) :
    ((add_event db en ed el dd now).2).next_fight_id = db.next_fight_id := by
  simp only [add_event]
  cases h : db.events.find?
      (fun e => e.event_name == normEventName en && e.event_date == parseEventDate ed dd now) <;>
    simp [h]

theorem add_fighter_fights (db : DB) (name n u hh w re st d : Option String) (cs : CareerStats) :
    ((add_fighter db name n u hh w re st d cs).2).fights = db.fights := by
  simp only [add_fighter]
  cases h : db.fighters.find? (fun r => r.name == normFighterName name) <;> simp [h]

theorem add_fighter_next_fight (db : DB) (name n u hh w re st d : Option String) (cs : CareerStats) :
    ((add_fighter db name n u hh w re st d cs).2).next_fight_id = db.next_fight_id := by
  simp only [add_fighter]
  cases h : db.fighters.find? (fun r => r.name == normFighterName name) <;> simp [h]

theorem insertRoundStats_fights (f1 f2 : Nat) (drafts : List RoundDraft) :
    ∀ acc : DB × Nat, ((insertRoundStats f1 f2 drafts acc).1).fights = acc.1.fights := by
  induction drafts with
  | nil => intro acc; rfl
  | cons d rest ih =>
    intro acc
    rw [insertRoundStats, ih]
    rfl

/-! ## Resolution lemmas for add_fighter

The name predicate is invariant under the coalesce update, so a find? by
name after a call to add_fighter lands on the row the call resolved to. -/

theorem updateFighterRow_name (r : FighterRow) (n u hh w re st fd : Option String)
    (cs : CareerStats) : (updateFighterRow r n u hh w re st fd cs).name = r.name := rfl

theorem updateFighterRow_id (r : FighterRow) (n u hh w re st fd : Option String)
    (cs : CareerStats) : (updateFighterRow r n u hh w re st fd cs).fighter_id = r.fighter_id := rfl

/-- After any call to add_fighter, a fighter row with the normalised name
exists, is the row find? by that name returns, and carries the id the
call returned; moreover the update branch applies the coalesce update
to the row that was found. -/
theorem add_fighter_find_after (db : DB) (name n u hh w re st d : Option String)
    (cs : CareerStats) :
    ((add_fighter db name n u hh w re st d cs).2).fighters.find?
        (fun x => x.name == normFighterName name) =
      (match db.fighters.find? (fun x => x.name == normFighterName name) with
        | some r => some (updateFighterRow r n u hh w re st (formatDob d) cs)
        | none =>
          some ⟨db.next_fighter_id, normFighterName name, n, u, hh, w, re, st, formatDob d,
            cs.slpm, cs.str_acc, cs.sapm, cs.str_def, cs.td_avg, cs.td_acc, cs.td_def,
            cs.sub_avg⟩) := by
  simp only [add_fighter]
  cases hfind : db.fighters.find? (fun x => x.name == normFighterName name) with
  | none =>
    simp only [hfind]
    rw [List.find?_append, hfind]
    simp
  | some r =>
    simp only [hfind]
    rw [List.find?_map]
    have hpf :
        ((fun x : FighterRow => x.name == normFighterName name) ∘
          (fun x : FighterRow =>
            if x.fighter_id == r.fighter_id then
              updateFighterRow x n u hh w re st (formatDob d) cs
            else x)) =
        (fun x : FighterRow => x.name == normFighterName name) := by
      funext x
      by_cases hx : x.fighter_id = r.fighter_id <;> simp [hx, updateFighterRow_name]
    rw [hpf, hfind]
    simp

/-- The id returned by add_fighter equals the fighter_id of the row that
find? by the normalised name returns afterwards. -/
theorem add_fighter_returned_id (db : DB) (name n u hh w re st d : Option String)
    (cs : CareerStats) :
    ∃ r, ((add_fighter db name n u hh w re st d cs).2).fighters.find?
          (fun x => x.name == normFighterName name) = some r ∧
        r.fighter_id = (add_fighter db name n u hh w re st d cs).1.1 ∧
        r.name = normFighterName name := by
  rw [add_fighter_find_after]
  cases hfind : db.fighters.find? (fun x => x.name == normFighterName name) with
  | none =>
    refine ⟨_, rfl, ?_, rfl⟩
    simp only [add_fighter, hfind]
  | some r =>
    refine ⟨_, rfl, ?_, ?_⟩
    · simp only [add_fighter, hfind, updateFighterRow_id]
    · rw [updateFighterRow_name]
      have := List.find?_some hfind
      exact eq_of_beq this

/-- A second call to add_fighter whose argument normalises to the same
stored name resolves to the id of the first call and reports no
insertion. -/
theorem add_fighter_again (db : DB) (name1 name2 n1 u1 h1 w1 re1 st1 d1 n2 u2 h2 w2 re2 st2 d2 :
    Option String) (cs1 cs2 : CareerStats)
    (hname : normFighterName name2 = normFighterName name1) :
    (add_fighter (add_fighter db name1 n1 u1 h1 w1 re1 st1 d1 cs1).2
        name2 n2 u2 h2 w2 re2 st2 d2 cs2).1 =
      ((add_fighter db name1 n1 u1 h1 w1 re1 st1 d1 cs1).1.1, false) := by
  obtain ⟨r, hr, hid, -⟩ := add_fighter_returned_id db name1 n1 u1 h1 w1 re1 st1 d1 cs1
  conv_lhs => rw [add_fighter]
  rw [hname, hr]
  simp [hid]

/-- After any call to add_event, a row with the normalised name and the
formatted date exists and carries the returned id. -/
theorem add_event_returned_row (db : DB) (en ed el : Option String) (dd now : String) :
    ∃ e, e ∈ ((add_event db en ed el dd now).2).events ∧
      e.event_id = (add_event db en ed el dd now).1.1 ∧
      e.event_name = normEventName en ∧
      e.event_date = parseEventDate ed dd now := by
  simp only [add_event]
  cases hfind : db.events.find?
      (fun e => e.event_name == normEventName en && e.event_date == parseEventDate ed dd now) with
  | some e =>
    have hmem := List.mem_of_find?_eq_some hfind
    have hp := List.find?_some hfind
    simp only [Bool.and_eq_true, beq_iff_eq] at hp
    exact ⟨e, hmem, rfl, hp.1, hp.2⟩
  | none =>
    refine ⟨⟨db.next_event_id, normEventName en, parseEventDate ed dd now, el⟩, ?_, rfl, rfl, rfl⟩
    simp

/-! ## Claims -/

/-- C1 (counterexample): two sightings carrying the same non-null profile
URL but different display names do not resolve to the same fighter id;
the second sighting is inserted as a fresh row (inserted = true) with a
different id, refuting URL-primary identity. -/
theorem fighter_identity_not_keyed_by_url :
    (let first := add_fighter dbEmpty (some "Jon Jones") none
        (some "http://ufcstats.com/fighter-details/abc") none none none none none csEmpty
     let second := add_fighter first.2 (some "Jonathan Jones") none
        (some "http://ufcstats.com/fighter-details/abc") none none none none none csEmpty
     second.1.2 = true ∧ second.1.1 ≠ first.1.1) := by decide

/-- C1 (amended): fighter resolution keys identity on the display name
alone, for every profile URL supplied: two sightings with the same name
argument resolve to the same fighter id and the second reports
inserted = false, whatever (equal or different) profile URLs and other
attributes the two sightings carry; the profile URL is stored only as a
coalesced attribute. -/
theorem fighter_identity_keyed_by_name (db : DB)
    (name n1 u1 h1 w1 re1 st1 d1 n2 u2 h2 w2 re2 st2 d2 : Option String)
    (cs1 cs2 : CareerStats) :
    (add_fighter (add_fighter db name n1 u1 h1 w1 re1 st1 d1 cs1).2
        name n2 u2 h2 w2 re2 st2 d2 cs2).1 =
      ((add_fighter db name n1 u1 h1 w1 re1 st1 d1 cs1).1.1, false) :=
  add_fighter_again db name name n1 u1 h1 w1 re1 st1 d1 n2 u2 h2 w2 re2 st2 d2 cs1 cs2 rfl

/-- C2 (counterexample): a stored non-null optional attribute is not left
unchanged by an update: a fighter stored with nickname Old, updated by a
sighting supplying nickname New, ends up with nickname New. -/
theorem coalesce_overwrites_counterexample :
    (((add_fighter (add_fighter dbEmpty (some "A") (some "Old")
          none none none none none none csEmpty).2
        (some "A") (some "New") none none none none none none csEmpty).2).fighters.map
      (fun r => r.nickname) = [some "New"]) ∧
    (some "New" : Option String) ≠ some "Old" := by decide

/-- C2 (amended): when add_fighter resolves to an existing row, every
optional column is updated with COALESCE(new, stored): a supplied
non-null value overwrites the stored value even when the stored value is
non-null, and a supplied null leaves the stored value unchanged; the
name and the id are untouched and inserted = false is reported. -/
theorem add_fighter_update_prefers_new_value (db : DB)
    (name n u hh w re st d : Option String) (cs : CareerStats) (r : FighterRow)
    (hfind : db.fighters.find? (fun x => x.name == normFighterName name) = some r) :
    (add_fighter db name n u hh w re st d cs).1 = (r.fighter_id, false) ∧
    ∃ r', ((add_fighter db name n u hh w re st d cs).2).fighters.find?
          (fun x => x.name == normFighterName name) = some r' ∧
      r'.fighter_id = r.fighter_id ∧ r'.name = r.name ∧
      r'.nickname = coalesce n r.nickname ∧
      r'.profile_url = coalesce u r.profile_url ∧
      r'.height = coalesce hh r.height ∧
      r'.weight = coalesce w r.weight ∧
      r'.reach = coalesce re r.reach ∧
      r'.stance = coalesce st r.stance ∧
      r'.dob = coalesce (formatDob d) r.dob ∧
      r'.slpm = coalesce cs.slpm r.slpm ∧
      r'.str_acc = coalesce cs.str_acc r.str_acc ∧
      r'.sapm = coalesce cs.sapm r.sapm ∧
      r'.str_def = coalesce cs.str_def r.str_def ∧
      r'.td_avg = coalesce cs.td_avg r.td_avg ∧
      r'.td_acc = coalesce cs.td_acc r.td_acc ∧
      r'.td_def = coalesce cs.td_def r.td_def ∧
      r'.sub_avg = coalesce cs.sub_avg r.sub_avg := by
  constructor
  · simp only [add_fighter, hfind]
  · rw [add_fighter_find_after, hfind]
    exact ⟨_, rfl, rfl, rfl, rfl, rfl, rfl, rfl, rfl, rfl, rfl, rfl, rfl, rfl, rfl,
      rfl, rfl, rfl, rfl⟩

/-- Witness for C2: a concrete database holding a fighter named A with
nickname Old, updated by a sighting supplying nickname New. -/
theorem add_fighter_update_prefers_new_value_w :
    (add_fighter (add_fighter dbEmpty (some "A") (some "Old")
          none none none none none none csEmpty).2
        (some "A") (some "New") none none none none none none csEmpty).1 = (1, false) :=
  (add_fighter_update_prefers_new_value
    (add_fighter dbEmpty (some "A") (some "Old") none none none none none none csEmpty).2
    (some "A") (some "New") none none none none none none csEmpty
    ⟨1, "A", some "Old", none, none, none, none, none, none,
      none, none, none, none, none, none, none, none⟩ (by decide)).1

/-- C4 (counterexample): the malformed concatenated field does not parse
to attempted = 5; the digit run 52 is a single integer token. -/
theorem concat_landed_attempted_not_first_digit :
    parse_landed_attempted_safe (some "2 of 52 of 8") ≠ (2, some 5) := by decide

/-- C4 (amended): the malformed concatenated field parses to landed = 2
and attempted = 52 (the first two maximal integer tokens), in both the
helper used by the import loop and the plain parser; both functions are
total, so no input raises. -/
theorem concat_landed_attempted_first_two_tokens :
    parse_landed_attempted_safe (some "2 of 52 of 8") = (2, some 52) ∧
    parse_landed_attempted (some "2 of 52 of 8") = (2, some 52) := by decide

/-- C7 (counterexample): the clean-string parser does not map the triple
dash to null; it returns it unchanged. -/
theorem safe_str_keeps_triple_dash :
    safe_str (some "---") = some "---" ∧ safe_str (some "---") ≠ none := by decide

/-- C7 (amended): for inputs that are empty, the placeholder N slash A in
any letter case, or the triple dash, the integer and float parsers
return the supplied default (and are total functions, so never raise);
the clean-string parser returns null for the empty and N slash A inputs
but returns the triple dash unchanged. -/
theorem token_parsers_on_placeholders (v : String) (d : Int) (df : Option Rat)
    (hv : v ∈ ["", "N/A", "N/a", "n/A", "n/a", "---"]) :
    extract_first_int (some v) d = d ∧
    extract_first_float (some v) df = df ∧
    safe_str (some v) = (if v = "---" then some "---" else none) := by
  simp only [List.mem_cons, List.not_mem_nil, or_false] at hv
  rcases hv with rfl | rfl | rfl | rfl | rfl | rfl <;> exact ⟨rfl, rfl, rfl⟩

/-- Witness for C7 at the lowercase placeholder. -/
theorem token_parsers_on_placeholders_w :
    extract_first_int (some "n/a") 7 = 7 ∧
    extract_first_float (some "n/a") (some 3) = some 3 ∧
    safe_str (some "n/a") = (if "n/a" = "---" then some "---" else none) :=
  token_parsers_on_placeholders "n/a" 7 (some 3) (by decide)

/-- C8 (confirmed): when exactly one of the two raw cells is date-shaped
for the looks_like_date heuristic, supplying them as (date, location) or
in the swapped order yields the same (date candidate, location
candidate) pair and hence the identical stored (event name, parsed
date) identity pair. -/
theorem event_key_transposition_invariant (en : Option String) (a b : String)
    (dd now : String)
    (h : looks_like_date (some a) ≠ looks_like_date (some b)) :
    eventCandidates (some a) (some b) dd = eventCandidates (some b) (some a) dd ∧
    eventKeyOfRow en (some a) (some b) dd now = eventKeyOfRow en (some b) (some a) dd now := by
  cases ha : looks_like_date (some a) <;> cases hb : looks_like_date (some b)
  · exact absurd (ha.trans hb.symm) h
  · exact ⟨by simp [eventCandidates, ha, hb], by simp [eventKeyOfRow, eventCandidates, ha, hb]⟩
  · exact ⟨by simp [eventCandidates, ha, hb], by simp [eventKeyOfRow, eventCandidates, ha, hb]⟩
  · exact absurd (ha.trans hb.symm) h

/-- Witness for C8: a month-named date cell against a location cell, in
both argument orders. -/
theorem event_key_transposition_invariant_w :
    eventCandidates (some "Oct. 04, 2025") (some "Las Vegas, Nevada, USA") "2025-01-01" =
      eventCandidates (some "Las Vegas, Nevada, USA") (some "Oct. 04, 2025") "2025-01-01" ∧
    eventKeyOfRow (some "UFC 320") (some "Oct. 04, 2025") (some "Las Vegas, Nevada, USA")
        "2025-01-01" "2025-01-01" =
      eventKeyOfRow (some "UFC 320") (some "Las Vegas, Nevada, USA") (some "Oct. 04, 2025")
        "2025-01-01" "2025-01-01" :=
  event_key_transposition_invariant (some "UFC 320") "Oct. 04, 2025" "Las Vegas, Nevada, USA"
    "2025-01-01" "2025-01-01" (by decide)

/-- C10 (confirmed): a missing or empty fighter name is stored as the
literal Unknown Fighter name, a second nameless sighting resolves to
that same row with inserted = false rather than creating a new one, and
a missing or empty event name is stored as the literal Unknown Event
name. -/
theorem unknown_name_substitution (db : DB) (name1 name2 : Option String)
    (n1 u1 h1 w1 re1 st1 d1 n2 u2 h2 w2 re2 st2 d2 : Option String) (cs1 cs2 : CareerStats)
    (en ed el : Option String) (dd now : String)
    (hn1 : name1 = none ∨ name1 = some "") (hn2 : name2 = none ∨ name2 = some "")
    (hen : en = none ∨ en = some "") :
    (∃ r, ((add_fighter db name1 n1 u1 h1 w1 re1 st1 d1 cs1).2).fighters.find?
          (fun x => x.name == "Unknown Fighter") = some r ∧
        r.fighter_id = (add_fighter db name1 n1 u1 h1 w1 re1 st1 d1 cs1).1.1 ∧
        r.name = "Unknown Fighter") ∧
    (add_fighter (add_fighter db name1 n1 u1 h1 w1 re1 st1 d1 cs1).2
        name2 n2 u2 h2 w2 re2 st2 d2 cs2).1 =
      ((add_fighter db name1 n1 u1 h1 w1 re1 st1 d1 cs1).1.1, false) ∧
    (∃ e, e ∈ ((add_event db en ed el dd now).2).events ∧
        e.event_id = (add_event db en ed el dd now).1.1 ∧
        e.event_name = "Unknown Event") := by
  have hkey1 : normFighterName name1 = "Unknown Fighter" := by
    rcases hn1 with rfl | rfl <;> rfl
  have hkey2 : normFighterName name2 = "Unknown Fighter" := by
    rcases hn2 with rfl | rfl <;> rfl
  refine ⟨?_, ?_, ?_⟩
  · have h := add_fighter_returned_id db name1 n1 u1 h1 w1 re1 st1 d1 cs1
    rw [hkey1] at h
    exact h
  · exact add_fighter_again db name1 name2 n1 u1 h1 w1 re1 st1 d1 n2 u2 h2 w2 re2 st2 d2
      cs1 cs2 (hkey2.trans hkey1.symm)
  · have hkey : normEventName en = "Unknown Event" := by
      rcases hen with rfl | rfl <;> rfl
    obtain ⟨e, hmem, hid, hname, -⟩ := add_event_returned_row db en ed el dd now
    exact ⟨e, hmem, hid, hname.trans hkey⟩

/-- Witness for C10: a nameless and an empty-named sighting on the empty
database. -/
theorem unknown_name_substitution_w :
    (add_fighter (add_fighter dbEmpty none none none none none none none none csEmpty).2
        (some "") none none none none none none none csEmpty).1 =
      ((add_fighter dbEmpty none none none none none none none none csEmpty).1.1, false) :=
  (unknown_name_substitution dbEmpty none (some "")
    none none none none none none none none none none none none none none csEmpty csEmpty
    none none none "2025-01-01" "2025-01-01"
    (Or.inl rfl) (Or.inr rfl) (Or.inl rfl)).2.1

/-- Helper: takeWhile and dropWhile with the digit predicate over an
all-digit prefix followed by an underscore. -/
theorem takeWhile_digits_underscore (ds rest : List Char) (hall : ds.all Char.isDigit = true) :
    (ds ++ '_' :: rest).takeWhile Char.isDigit = ds ∧
    (ds ++ '_' :: rest).dropWhile Char.isDigit = '_' :: rest := by
  have hu : Char.isDigit '_' = false := rfl
  induction ds with
  | nil => exact ⟨by simp [List.takeWhile_cons, hu], by simp [List.dropWhile_cons, hu]⟩
  | cons c cs ih =>
    simp only [List.all_cons, Bool.and_eq_true] at hall
    obtain ⟨h1, h2⟩ := ih hall.2
    exact ⟨by simp [List.takeWhile_cons, hall.1, h1],
           by simp [List.dropWhile_cons, hall.1, h2]⟩

/-- C3 (counterexample): a block column whose section label is Stats
rather than Totals is not discovered at all: the block-key match fails,
no block number is collected, and the row yields no round drafts,
whereas the same data under the Totals label yields one. -/
theorem section_label_not_uniform :
    blockKeyNumL "F1_Stats_KD".data = none ∧
    discoverBlocks ["F1_Stats_KD"] = [] ∧
    roundDraftsForRow ["F1_Stats_KD"] [("F1_Stats_KD", "1")] = [] ∧
    roundDraftsForRow ["F1_Totals_KD"] [("F1_Totals_KD", "1")] ≠ [] := by decide

/-- C3 (amended): round-block discovery is not uniform over section
labels; it matches only column names of the exact shape F, a non-empty
digit run, the literal Totals infix, and a non-empty field part: the
block-key match succeeds exactly on keys of that shape, with the block
number the value of the digit run. -/
theorem block_discovery_requires_totals_label :
    (∀ (cs : List Char) (n : Nat), blockKeyNumL cs = some n →
      ∃ ds rest, cs = 'F' :: (ds ++ (totalsSep ++ rest)) ∧ ds ≠ [] ∧
        ds.all Char.isDigit = true ∧ digitsVal ds = n ∧ dotPlusEnd rest = true) ∧
    (∀ (ds rest : List Char), ds ≠ [] → ds.all Char.isDigit = true →
      dotPlusEnd rest = true →
      blockKeyNumL ('F' :: (ds ++ (totalsSep ++ rest))) = some (digitsVal ds)) := by
  constructor
  · intro cs n h
    match cs with
    | [] => exact absurd h (by simp [blockKeyNumL])
    | c :: rest =>
      simp only [blockKeyNumL] at h
      by_cases hc : c = 'F'
      · subst hc
        rw [if_pos rfl] at h
        by_cases hds : rest.takeWhile Char.isDigit = []
        · rw [if_pos hds] at h; cases h
        · rw [if_neg hds] at h
          by_cases hpre : totalsSep.isPrefixOf (rest.dropWhile Char.isDigit) = true
          · rw [if_pos hpre] at h
            obtain ⟨r, hr⟩ := List.isPrefixOf_iff_prefix.mp hpre
            by_cases hdp : dotPlusEnd ((rest.dropWhile Char.isDigit).drop 8) = true
            · rw [if_pos hdp] at h
              injection h with hn
              refine ⟨rest.takeWhile Char.isDigit, r, ?_, hds, List.all_takeWhile, hn, ?_⟩
              · rw [hr, List.takeWhile_append_dropWhile]
              · rw [← hr, List.drop_left' (by rfl)] at hdp
                exact hdp
            · rw [if_neg hdp] at h; cases h
          · rw [if_neg hpre] at h; cases h
      · rw [if_neg hc] at h; cases h
  · intro ds rest hne hall hdp
    have key := takeWhile_digits_underscore ds
      ('T' :: 'o' :: 't' :: 'a' :: 'l' :: 's' :: '_' :: rest) hall
    have hsep : totalsSep ++ rest = '_' :: 'T' :: 'o' :: 't' :: 'a' :: 'l' :: 's' :: '_' :: rest := rfl
    simp only [blockKeyNumL, hsep]
    rw [if_pos trivial, key.1, if_neg hne, key.2]
    have hpre : totalsSep.isPrefixOf
        ('_' :: 'T' :: 'o' :: 't' :: 'a' :: 'l' :: 's' :: '_' :: rest) = true :=
      List.isPrefixOf_iff_prefix.mpr ⟨rest, rfl⟩
    rw [if_pos hpre]
    have hdrop : ('_' :: 'T' :: 'o' :: 't' :: 'a' :: 'l' :: 's' :: '_' :: rest).drop 8 = rest := rfl
    rw [hdrop, if_pos hdp]

/-- Witness for C3 at block 7 with field KD. -/
theorem block_discovery_requires_totals_label_w :
    blockKeyNumL ('F' :: (['7'] ++ (totalsSep ++ "KD".data))) = some (digitsVal ['7']) :=
  block_discovery_requires_totals_label.2 ['7'] "KD".data
    (by decide) (by decide) (by decide)

/-- C5 (counterexample): a header can carry a block numbered zero, which
is discovered and emitted: the import of such a row inserts a
round_stats row whose round number is 0, so not every inserted
round_stats row has round number at least 1. -/
theorem block_zero_round_counterexample :
    ((processRow ["F0_Totals_KD"] [("F0_Totals_KD", "1")] "2025-01-01" "2025-01-01"
        dbEmpty ⟨0, 0, 0, 0⟩).1.round_stats.map (fun r => r.round_number)) = [0] ∧
    ¬ (1 ≤ (0 : Nat)) := by decide

/-- C5 (amended): for every discovered block number b at least 1, the
emitted round draft has round number (b + 1) / 2 (the ceiling of b over
2), which is at least 1, and fighter slot 1 when b is odd and 2 when b
is even; in particular blocks 1 to 4 map to rounds 1, 1, 2, 2 and slots
1, 2, 1, 2. A block numbered 0, expressible in a header, is instead
emitted with round number 0. -/
theorem block_round_mapping (row : Row) (b : Nat) (d : RoundDraft)
    (hb : 1 ≤ b) (h : processBlock row b = some d) :
    d.round_number = (b + 1) / 2 ∧
    1 ≤ d.round_number ∧
    d.fighterIndex = (if b % 2 = 1 then 1 else 2) ∧
    (b = 1 → d.round_number = 1 ∧ d.fighterIndex = 1) ∧
    (b = 2 → d.round_number = 1 ∧ d.fighterIndex = 2) ∧
    (b = 3 → d.round_number = 2 ∧ d.fighterIndex = 1) ∧
    (b = 4 → d.round_number = 2 ∧ d.fighterIndex = 2) := by
  unfold processBlock at h
  by_cases hp : blockPresence row b = true
  · rw [if_pos hp] at h
    injection h with h
    subst h
    refine ⟨rfl, show 1 ≤ (b + 1) / 2 by omega, rfl, ?_, ?_, ?_, ?_⟩ <;>
      (rintro rfl; exact ⟨rfl, rfl⟩)
  · rw [if_neg hp] at h; cases h

/-- Concrete row for the C5 witness. -/
def rowW : Row := [("F3_Totals_KD", "2")]

/-- The draft the C5 witness row emits for block 3. -/
def draftW : RoundDraft := ⟨2, 1, 2, 0, none, 0, 0, none, 0, 0, none⟩

/-- Witness for C5 at block 3. -/
theorem block_round_mapping_w :
    draftW.round_number = (3 + 1) / 2 ∧
    1 ≤ draftW.round_number ∧
    draftW.fighterIndex = (if 3 % 2 = 1 then 1 else 2) ∧
    (3 = 1 → draftW.round_number = 1 ∧ draftW.fighterIndex = 1) ∧
    (3 = 2 → draftW.round_number = 1 ∧ draftW.fighterIndex = 2) ∧
    (3 = 3 → draftW.round_number = 2 ∧ draftW.fighterIndex = 1) ∧
    (3 = 4 → draftW.round_number = 2 ∧ draftW.fighterIndex = 2) :=
  block_round_mapping rowW 3 draftW (by decide) (by decide)

/-- C6 (counterexample): a block whose only numeric column holds the
lowercase placeholder is not skipped: the presence test compares the
trimmed text against the exact uppercase placeholder only, so the
lowercase variant counts as usable data and a round draft is emitted. -/
theorem presence_test_case_sensitive_counterexample :
    roundDraftsForRow ["F1_Totals_KD"] [("F1_Totals_KD", "n/a")] ≠ [] ∧
    (roundDraftsForRow ["F1_Totals_KD"] [("F1_Totals_KD", "n/a")]).length = 1 := by decide

/-- Helper: the presence test as a proposition. The Python check demands
a present, truthy cell whose stripped text is outside the placeholder
list; truthiness is implied by a non-empty strip. -/
theorem blockPresence_iff (row : Row) (b : Nat) :
    blockPresence row b = true ↔
      ∃ k, k ∈ [blockCol b "KD", blockCol b "Sig_Str", blockCol b "Total_Str"] ∧
        ∃ v, pyGet row k = some v ∧ pyStrip v ≠ "" ∧ pyStrip v ≠ "N/A" ∧ pyStrip v ≠ "---" := by
  unfold blockPresence
  rw [List.any_eq_true]
  constructor
  · rintro ⟨k, hk, hcheck⟩
    refine ⟨k, hk, ?_⟩
    cases hv : pyGet row k with
    | none => rw [hv] at hcheck; cases hcheck
    | some v =>
      rw [hv] at hcheck
      simp only [Bool.and_eq_true, decide_eq_true_eq, Bool.not_eq_true',
        Bool.or_eq_false_iff, decide_eq_false_iff_not] at hcheck
      exact ⟨v, rfl, hcheck.2.1.1, hcheck.2.1.2, hcheck.2.2⟩
  · rintro ⟨k, hk, v, hv, h1, h2, h3⟩
    refine ⟨k, hk, ?_⟩
    rw [hv]
    have hvne : v ≠ "" := by
      intro hveq
      exact h1 (by rw [hveq]; rfl)
    simp only [Bool.and_eq_true, decide_eq_true_eq, Bool.not_eq_true',
      Bool.or_eq_false_iff, decide_eq_false_iff_not]
    exact ⟨hvne, ⟨h1, h2⟩, h3⟩

/-- C6 (amended): a block is emitted exactly when at least one of its KD,
Sig_Str, or Total_Str columns is present in the row with a trimmed
value that is non-empty and differs from the exact, case-sensitive
placeholders (uppercase N slash A and the triple dash); the lowercase
placeholder variant counts as data. A row whose header has no matching
block columns at all yields zero round drafts. -/
theorem presence_test_characterisation :
    (∀ (row : Row) (b : Nat),
      (processBlock row b).isSome = true ↔
        ∃ k, k ∈ [blockCol b "KD", blockCol b "Sig_Str", blockCol b "Total_Str"] ∧
          ∃ v, pyGet row k = some v ∧ pyStrip v ≠ "" ∧ pyStrip v ≠ "N/A" ∧ pyStrip v ≠ "---") ∧
    (∀ (hk : List String) (row : Row),
      (∀ k ∈ hk, blockKeyNumL k.data = none) → roundDraftsForRow hk row = []) := by
  constructor
  · intro row b
    rw [← blockPresence_iff]
    unfold processBlock
    by_cases hp : blockPresence row b = true
    · simp [hp]
    · simp [hp]
  · intro hk row hnone
    unfold roundDraftsForRow discoverBlocks
    have hfm : hk.filterMap (fun k => blockKeyNumL k.data) = [] :=
      List.filterMap_eq_nil_iff.mpr hnone
    rw [hfm]
    rfl

/-- Witness for C6: a header with no block column yields no drafts. -/
theorem presence_test_characterisation_w :
    roundDraftsForRow ["Event Name"] [] = [] :=
  presence_test_characterisation.2 ["Event Name"] [] (by decide)

/-- Helper: one row iteration appends exactly two fight rows, leaves the
earlier fight rows untouched, cross-references the pair, and gives the
second row the successor fight id of the first. -/
theorem processRow_fights_spec (hk : List String) (row : Row) (dd now : String)
    (db : DB) (c : Counters) :
    ∃ r1 r2 : FightRow,
      ((processRow hk row dd now db c).1).fights = db.fights ++ [r1, r2] ∧
      r1.opponent_id = some r2.fighter_id ∧
      r2.opponent_id = some r1.fighter_id ∧
      r2.fight_id = r1.fight_id + 1 := by
  simp only [processRow, add_fight_result, insertRoundStats_fights,
    add_event_fights, add_fighter_fights, add_event_next_fight, add_fighter_next_fight,
    List.append_assoc, List.singleton_append, List.cons_append, List.nil_append]
  exact ⟨_, _, rfl, rfl, rfl, rfl⟩

/-- C9 (confirmed): every processed row inserts exactly two fight rows,
one per participant, each referencing the other as opponent, appended
after the existing fight rows, which are never modified; the two rows
have distinct ids, and re-processing the same row appends a further new
pair instead of deduplicating, so the fight count grows by four. -/
theorem fight_pair_per_row (hk : List String) (row : Row) (dd now : String)
    (db : DB) (c c' : Counters) :
    (∃ r1 r2 : FightRow,
      ((processRow hk row dd now db c).1).fights = db.fights ++ [r1, r2] ∧
      r1.opponent_id = some r2.fighter_id ∧
      r2.opponent_id = some r1.fighter_id ∧
      r1.fight_id ≠ r2.fight_id) ∧
    ((processRow hk row dd now (processRow hk row dd now db c).1 c').1).fights.length =
      db.fights.length + 4 := by
  obtain ⟨r1, r2, h12, ho1, ho2, hid⟩ := processRow_fights_spec hk row dd now db c
  refine ⟨⟨r1, r2, h12, ho1, ho2, by omega⟩, ?_⟩
  obtain ⟨r3, r4, h34, -, -, -⟩ :=
    processRow_fights_spec hk row dd now (processRow hk row dd now db c).1 c'
  rw [h34, h12]
  simp [List.length_append]

end UFC

